import Mathlib

/-!
Verification of the OG-image generator script of the marketing-site repository
(scripts/generate-og-image.py) against its specification.

The script is embedded shallowly: every drawing call made against the Pillow
ImageDraw object is recorded as a DrawOp with the arguments the script computes;
the canvas is a pixel function mutated by an abstract rasterizer; Python float
arithmetic is modelled over exact rationals, with pyInt as Python's int()
truncation; the trigonometric library functions, the set of font paths that
load, the text measurement and the rasterizer are abstract parameters (Env),
since the spec places the imaging library and font discovery out of scope.
-/

set_option autoImplicit false
set_option linter.unusedVariables false

namespace OgImage

/-- RGB color triple, as the script's constant tuples. -/
abbrev Color := ℕ × ℕ × ℕ

/-- Warm white background, the script's BACKGROUND constant. -/
def BACKGROUND : Color := (253, 251, 247)

/-- Solar gold, the script's PRIMARY constant. -/
def PRIMARY : Color := (196, 147, 61)

/-- Deep brown, the script's FOREGROUND constant. -/
def FOREGROUND : Color := (41, 37, 36)

/-- Python int() applied to a number: truncation toward zero. The script's float
arithmetic is modelled over exact rationals. -/
def pyInt (q : ℚ) : ℤ := if 0 ≤ q then ⌊q⌋ else ⌈q⌉

/-- A font as the script selects it: a truetype font loaded from a file path at a
size, or the built-in default returned by ImageFont.load_default(). -/
inductive Font where
  | truetype (path : String) (size : ℕ)
  | builtinDefault
deriving DecidableEq

/-- One drawing call issued against the ImageDraw object, with the arguments the
script passes. -/
inductive DrawOp where
  | arc (bbox : List ℤ) (start stop : ℚ) (fill : Color) (width : ℤ)
  | line (pts : List (ℤ × ℤ)) (fill : Color) (width : ℤ)
  | ellipse (bbox : List ℤ) (outline : Color) (width : ℤ)
  | text (pos : ℤ × ℤ) (content : String) (fill : Color) (font : Font)
deriving DecidableEq

/-- A Pillow image: pixel dimensions and pixel content. The pix function is total,
but drawing only ever changes entries inside the width-by-height grid, which models
Pillow clipping out-of-bounds drawing silently. -/
structure Img where
  width : ℕ
  height : ℕ
  pix : ℕ → ℕ → Color

/-- Image.new: a canvas of the given size filled with one color. -/
def imageNew (w h : ℕ) (c : Color) : Img := ⟨w, h, fun _ _ => c⟩

/-- A rasterizer: for a drawing call, which pixels it covers and with what color.
Pillow's concrete rasterization of arcs, lines, ellipses and text is out of scope
for the spec, so it is an abstract parameter of the model. -/
abbrev Raster := DrawOp → ℕ → ℕ → Option Color

/-- Execute one drawing call: covered in-range pixels take the rasterized color;
every other pixel, including everything outside the canvas, is unchanged. -/
def applyOp (raster : Raster) (img : Img) (op : DrawOp) : Img :=
  ⟨img.width, img.height, fun x y =>
    if x < img.width ∧ y < img.height then
      match raster op x y with
      | some c => c
      | none => img.pix x y
    else img.pix x y⟩

/-- Execute a list of drawing calls in order. -/
def renderOps (raster : Raster) (img : Img) (ops : List DrawOp) : Img :=
  ops.foldl (applyOp raster) img

/-- The fixed (angle, length multiplier) table ray_data of draw_sun_logo. -/
def ray_data : List (ℚ × ℚ) :=
  [(-73.5, 0.65), (-58.8, 0.85), (-44.1, 0.70), (-29.4, 0.95), (-14.7, 0.75),
   (0, 1.0), (14.7, 0.70), (29.4, 0.95), (44.1, 0.65), (58.8, 0.90), (73.5, 0.65)]

/-- The list of angles whose rays carry a circuit node, as written in the script. -/
def nodeAngles : List ℚ := [73.5, 44.1, 29.4, 14.7, 58.8]

/-- One loop iteration of draw_sun_logo for the ray (angle_deg, length_mult): the
ray line, followed by a circuit-node ellipse when the angle's absolute value is in
nodeAngles. cosA and sinA stand for math.cos and math.sin composed with the
degree-to-radian conversion; the script applies them at angle_deg - 90 so that
angle 0 points up. -/
def drawRay (cosA sinA : ℚ → ℚ) (center_x horizon_y : ℤ) (scale : ℚ)
    (ray_start_radius ray_base_length : ℤ) (ray : ℚ × ℚ) : List DrawOp :=
  let angle_deg := ray.1
  let length_mult := ray.2
  let start_x := center_x + pyInt ((ray_start_radius : ℚ) * cosA (angle_deg - 90))
  let start_y := horizon_y + pyInt ((ray_start_radius : ℚ) * sinA (angle_deg - 90))
  let ray_length := pyInt ((ray_base_length : ℚ) * length_mult)
  let end_x := center_x + pyInt (((ray_start_radius : ℚ) + (ray_length : ℚ)) * cosA (angle_deg - 90))
  let end_y := horizon_y + pyInt (((ray_start_radius : ℚ) + (ray_length : ℚ)) * sinA (angle_deg - 90))
  DrawOp.line [(start_x, start_y), (end_x, end_y)] PRIMARY (pyInt (2.5 * scale)) ::
    (if |angle_deg| ∈ nodeAngles then
      let node_radius := pyInt (4 * scale)
      [DrawOp.ellipse
        [end_x - node_radius, end_y - node_radius, end_x + node_radius, end_y + node_radius]
        PRIMARY (pyInt (2 * scale))]
    else [])

/-- draw_sun_logo: every drawing call it issues, in order: the sun arc, the horizon
line, and for each ray_data entry the ray line with its optional circuit node. -/
def draw_sun_logo (cosA sinA : ℚ → ℚ) (center_x center_y : ℤ) (scale : ℚ) : List DrawOp :=
  let sun_radius := pyInt (55 * scale)
  let horizon_y := center_y + pyInt (10 * scale)
  let sun_bbox := [center_x - sun_radius, horizon_y - sun_radius,
                   center_x + sun_radius, horizon_y + sun_radius]
  let horizon_half_width := pyInt (117 * scale)
  let ray_start_radius := pyInt (60 * scale)
  let ray_base_length := pyInt (55 * scale)
  DrawOp.arc sun_bbox 200 340 PRIMARY (pyInt (4 * scale)) ::
    DrawOp.line
      [(center_x - horizon_half_width, horizon_y), (center_x + horizon_half_width, horizon_y)]
      PRIMARY (pyInt (2 * scale)) ::
    ray_data.flatMap (drawRay cosA sinA center_x horizon_y scale ray_start_radius ray_base_length)

/-- The candidate font file paths, in the order the script lists them. -/
def font_paths : List String :=
  ["/System/Library/Fonts/Helvetica.ttc",
   "/System/Library/Fonts/SFNSText.ttf",
   "/usr/share/fonts/truetype/dejavu/DejaVuSans.ttf"]

/-- The fixed font size main uses. -/
def font_size : ℕ := 38

/-- The font-selection loop of main: try ImageFont.truetype on each candidate in
order, keep the first that loads without raising OSError, none when every candidate
fails. loads p says whether truetype succeeds at path p. -/
def tryFontPaths (loads : String → Bool) (size : ℕ) : List String → Option Font
  | [] => none
  | p :: ps => if loads p then some (Font.truetype p size) else tryFontPaths loads size ps

/-- The font main ends up drawing with: the first loadable candidate, or
ImageFont.load_default() when none of them loads. -/
def resolveFont (loads : String → Bool) : Font :=
  match tryFontPaths loads font_size font_paths with
  | some f => f
  | none => Font.builtinDefault

/-- The ambient libraries and machine state an invocation runs against: the trig
functions, which font paths load, the text measurement draw.textbbox performs
(bbox right edge minus bbox left edge), and the rasterizer. -/
structure Env where
  cosA : ℚ → ℚ
  sinA : ℚ → ℚ
  fontLoads : String → Bool
  textWidth : Font → String → ℤ
  raster : Raster

/-- A filesystem path as its list of components; its parent is dropLast. -/
abbrev FsPath := List String

/-- The set of directories that exist, as a list of paths. -/
abbrev DirState := List FsPath

/-- output.parent.mkdir(parents=True, exist_ok=True): afterwards the directory and
every ancestor of it exist; directories that already exist are kept and raise no
error. -/
def mkdirParentsExistOk (fs : DirState) (dir : FsPath) : DirState :=
  fs ++ dir.inits

/-- The fixed tagline string of main. -/
def tagline : String := "Responsible. Autonomous. Engineering."

/-- img.save(output, PNG): the file holds exactly the image's pixels at the image's
size; saving never rescales. -/
structure PngFile where
  pngWidth : ℕ
  pngHeight : ℕ
  pngPix : ℕ → ℕ → Color

/-- Serialize an image to a PNG file, unscaled. -/
def savePng (img : Img) : PngFile := ⟨img.width, img.height, img.pix⟩

/-- What an invocation of main produces: the composed in-memory image, the PNG file
written, the directories existing after the mkdir call, the path written to, and
the process exit status. -/
structure MainResult where
  image : Img
  png : PngFile
  dirs : DirState
  outPath : FsPath
  exitCode : ℕ

/-- The logo center x main computes: width // 2. -/
def logoCenterX (width : ℕ) : ℤ := (width / 2 : ℕ)

/-- The logo center y main computes: int(height * 0.38). -/
def logoCenterY (height : ℕ) : ℤ := pyInt ((height : ℚ) * 0.38)

/-- The logo scale main passes: 2.8. -/
def logo_scale : ℚ := 2.8

/-- The tagline y coordinate main computes: height - 110. -/
def textY (height : ℕ) : ℤ := (height : ℤ) - 110

/-- The tagline x coordinate main computes: (width - text_width) // 2, Python floor
division. -/
def textX (width : ℕ) (text_width : ℤ) : ℤ := Int.fdiv ((width : ℤ) - text_width) 2

/-- Every drawing call main issues against the canvas, in order: the sun logo drawn
at center (width // 2, int(height * 0.38)) at scale 2.8, then the tagline text at
(textX, textY) in the resolved font. -/
def mainOps (env : Env) (width height : ℕ) : List DrawOp :=
  let font := resolveFont env.fontLoads
  let text_width := env.textWidth font tagline
  draw_sun_logo env.cosA env.sinA (logoCenterX width) (logoCenterY height) logo_scale ++
    [DrawOp.text (textX width text_width, textY height) tagline FOREGROUND font]

/-- main: create the background-filled canvas of the requested size, draw the logo
and the tagline, create the output path's parent directories, save the PNG, and
finish with exit status 0. -/
def main (env : Env) (fs : DirState) (output : FsPath) (width height : ℕ) : MainResult :=
  let img := renderOps env.raster (imageNew width height BACKGROUND) (mainOps env width height)
  ⟨img, savePng img, mkdirParentsExistOk fs output.dropLast, output, 0⟩

/-- Whether a drawing call is a line segment. -/
def DrawOp.isLine : DrawOp → Bool
  | .line _ _ _ => true
  | _ => false

/-- Whether a drawing call is an ellipse. -/
def DrawOp.isEllipse : DrawOp → Bool
  | .ellipse _ _ _ => true
  | _ => false

/-- Observable outcome of one run of the vector-rasterizing script variant: its
exit status, the output file it wrote if any, and whether it reported an error. -/
structure VectorRun where
  exitCode : ℕ
  written : Option FsPath
  errReported : Bool

/-- Modelled from the spec: the vector-rasterizing variant of the image script is
not among the source files under scripts (only the procedural variant is). Per the
spec it reads a vector logo asset from a fixed relative path; a missing asset or a
failing external rasterization step is reported to the error stream and terminates
the script with exit status 1 before any output file is written; otherwise the
composed PNG is written to the output path and the script exits with status 0. -/
def vectorVariantRun (assetExists rasterizeOk : Bool) (output : FsPath) : VectorRun :=
  if assetExists = false then ⟨1, none, true⟩
  else if rasterizeOk = false then ⟨1, none, true⟩
  else ⟨0, some output, false⟩

/-- A concrete environment for instantiating the theorems: zero trig functions, no
font path loads, zero text width, a rasterizer covering no pixel. -/
def trivEnv : Env :=
  ⟨fun _ => 0, fun _ => 0, fun _ => false, fun _ _ => 0, fun _ _ _ => none⟩

/-- A second concrete environment: identical libraries, but one additional font
path outside the candidate list would load. -/
def altEnv : Env :=
  { trivEnv with fontLoads := fun p => p == "/tmp/extra-font.ttf" }

/-- A concrete font-availability oracle on which only the second candidate loads. -/
def sfnsOnly : String → Bool :=
  fun p => p == "/System/Library/Fonts/SFNSText.ttf"

/-- Rendering a list of drawing calls never changes the canvas width. -/
theorem renderOps_width (raster : Raster) (ops : List DrawOp) (img : Img) :
    (renderOps raster img ops).width = img.width := by
  induction ops generalizing img with
  | nil => rfl
  | cons op ops ih => exact (ih (applyOp raster img op)).trans rfl

/-- Rendering a list of drawing calls never changes the canvas height. -/
theorem renderOps_height (raster : Raster) (ops : List DrawOp) (img : Img) :
    (renderOps raster img ops).height = img.height := by
  induction ops generalizing img with
  | nil => rfl
  | cons op ops ih => exact (ih (applyOp raster img op)).trans rfl

/-- A pixel covered by none of the drawing calls keeps its prior color. -/
theorem renderOps_pix_of_uncovered (raster : Raster) (ops : List DrawOp) (img : Img)
    (x y : ℕ) (h : ∀ op ∈ ops, raster op x y = none) :
    (renderOps raster img ops).pix x y = img.pix x y := by
  induction ops generalizing img with
  | nil => rfl
  | cons op ops ih =>
    have h1 : raster op x y = none := h op (List.mem_cons_self op ops)
    have h2 : ∀ o ∈ ops, raster o x y = none := fun o ho => h o (List.mem_cons_of_mem op ho)
    have hstep : (applyOp raster img op).pix x y = img.pix x y := by
      simp [applyOp, h1]
    exact (ih (applyOp raster img op) h2).trans hstep

/-- A coordinate outside the canvas grid is never written by rendering. -/
theorem renderOps_pix_outside (raster : Raster) (ops : List DrawOp) (img : Img)
    (x y : ℕ) (h : ¬(x < img.width ∧ y < img.height)) :
    (renderOps raster img ops).pix x y = img.pix x y := by
  induction ops generalizing img with
  | nil => rfl
  | cons op ops ih =>
    have hstep : (applyOp raster img op).pix x y = img.pix x y := by
      simp [applyOp, h]
    exact (ih (applyOp raster img op) h).trans hstep

/-- The font loop returns exactly the first candidate the oracle accepts. -/
theorem tryFontPaths_eq_find (loads : String → Bool) (size : ℕ) (ps : List String) :
    tryFontPaths loads size ps = (ps.find? loads).map (fun p => Font.truetype p size) := by
  induction ps with
  | nil => rfl
  | cons p ps ih =>
    by_cases hp : loads p
    · simp [tryFontPaths, hp]
    · simp [tryFontPaths, hp, ih]

/-- Python int() of a nonnegative number is its floor. -/
theorem pyInt_nonneg_eq_floor {q : ℚ} (h : 0 ≤ q) : pyInt q = ⌊q⌋ := if_pos h

/-- Each loop iteration of draw_sun_logo draws exactly one line: the ray itself. -/
theorem drawRay_countP_isLine (cosA sinA : ℚ → ℚ) (cx hy : ℤ) (scale : ℚ) (rsr rbl : ℤ)
    (r : ℚ × ℚ) :
    (drawRay cosA sinA cx hy scale rsr rbl r).countP DrawOp.isLine = 1 := by
  simp only [drawRay]
  by_cases hmem : |r.1| ∈ nodeAngles <;>
    simp [hmem, List.countP_cons, DrawOp.isLine]

/-- The ray loop draws one line per table entry. -/
theorem flatMap_drawRay_countP (cosA sinA : ℚ → ℚ) (cx hy : ℤ) (scale : ℚ) (rsr rbl : ℤ)
    (l : List (ℚ × ℚ)) :
    ((l.flatMap (drawRay cosA sinA cx hy scale rsr rbl)).countP DrawOp.isLine) = l.length := by
  induction l with
  | nil => rfl
  | cons r l ih =>
    simp [List.countP_append, ih, drawRay_countP_isLine, Nat.add_comm]

/-- The shape of one loop iteration of draw_sun_logo: a ray line from s to e, and a
circuit-node ellipse centered at e exactly when the angle's absolute value is in the
node list. -/
theorem drawRay_shape (cosA sinA : ℚ → ℚ) (cx hy : ℤ) (scale : ℚ) (rsr rbl : ℤ)
    (r : ℚ × ℚ) :
    ∃ s e, drawRay cosA sinA cx hy scale rsr rbl r =
      DrawOp.line [s, e] PRIMARY (pyInt (2.5 * scale)) ::
        (if |r.1| ∈ nodeAngles then
          [DrawOp.ellipse [e.1 - pyInt (4 * scale), e.2 - pyInt (4 * scale),
                           e.1 + pyInt (4 * scale), e.2 + pyInt (4 * scale)]
             PRIMARY (pyInt (2 * scale))]
        else []) := by
  simp only [drawRay]
  exact ⟨_, _, rfl⟩

/-- Over the angles actually tabulated in ray_data, membership of the absolute value
in the node list is exactly being a nonzero angle. -/
theorem mem_nodeAngles_iff_ne_zero :
    ∀ r ∈ ray_data, (|r.1| ∈ nodeAngles ↔ r.1 ≠ 0) := by
  intro r hr
  fin_cases hr <;> norm_num [nodeAngles]

/-- C1: for every invocation of main with width and height at least 1, the PNG file
written has pixel dimensions exactly the requested width by height, and its pixel
content is exactly the composed canvas: the canvas is created at the requested size
and saved unscaled. -/
theorem main_png_dims (env : Env) (fs : DirState) (output : FsPath) (width height : ℕ)
    (hw : 1 ≤ width) (hh : 1 ≤ height) :
    (main env fs output width height).png.pngWidth = width ∧
    (main env fs output width height).png.pngHeight = height ∧
    (main env fs output width height).png.pngPix = (main env fs output width height).image.pix := by
  refine ⟨?_, ?_, rfl⟩
  · exact renderOps_width env.raster (mainOps env width height) (imageNew width height BACKGROUND)
  · exact renderOps_height env.raster (mainOps env width height) (imageNew width height BACKGROUND)

/-- C1 witness: a concrete 1-by-1 invocation. -/
theorem main_png_dims_witness :
    (main trivEnv [] ["og.png"] 1 1).png.pngWidth = 1 ∧
    (main trivEnv [] ["og.png"] 1 1).png.pngHeight = 1 :=
  ⟨(main_png_dims trivEnv [] ["og.png"] 1 1 (by decide) (by decide)).1,
   (main_png_dims trivEnv [] ["og.png"] 1 1 (by decide) (by decide)).2.1⟩

/-- C2: in the vector-rasterizing script variant (modelled from the spec), a missing
vector asset makes the run exit with status 1 having written no output file; exit
status 0 holds exactly when the output file was written, and the only exit statuses
are 0 and 1. -/
theorem vector_variant_missing_asset (assetExists rasterizeOk : Bool) (output : FsPath) :
    (assetExists = false →
      (vectorVariantRun assetExists rasterizeOk output).exitCode = 1 ∧
      (vectorVariantRun assetExists rasterizeOk output).written = none) ∧
    ((vectorVariantRun assetExists rasterizeOk output).exitCode = 0 ↔
      ((vectorVariantRun assetExists rasterizeOk output).written.isSome = true)) ∧
    ((vectorVariantRun assetExists rasterizeOk output).exitCode = 0 ∨
      (vectorVariantRun assetExists rasterizeOk output).exitCode = 1) := by
  cases assetExists <;> cases rasterizeOk <;> simp [vectorVariantRun]

/-- C2 witness: a run with the vector asset missing. -/
theorem vector_variant_missing_asset_witness :
    (vectorVariantRun false true ["og.png"]).exitCode = 1 ∧
    (vectorVariantRun false true ["og.png"]).written = none :=
  (vector_variant_missing_asset false true ["og.png"]).1 rfl

/-- C3: main's canvas starts with every pixel equal to the constant background color
(253, 251, 247), and any pixel of the final image covered by none of main's
logo-drawing or text-drawing calls still equals that background color. -/
theorem main_background_pixels (env : Env) (fs : DirState) (output : FsPath)
    (width height : ℕ) (x y : ℕ)
    (h : ∀ op ∈ mainOps env width height, env.raster op x y = none) :
    (imageNew width height BACKGROUND).pix x y = BACKGROUND ∧
    (main env fs output width height).image.pix x y = BACKGROUND := by
  refine ⟨rfl, ?_⟩
  exact (renderOps_pix_of_uncovered env.raster (mainOps env width height)
    (imageNew width height BACKGROUND) x y h).trans rfl

/-- C3 witness: with a rasterizer covering no pixel, every pixel stays background. -/
theorem main_background_pixels_witness :
    (main trivEnv [] ["og.png"] 1 1).image.pix 0 0 = BACKGROUND :=
  (main_background_pixels trivEnv [] ["og.png"] 1 1 0 0 (fun _ _ => rfl)).2

/-- C4: main places the logo horizontally centered and offset toward the upper
portion: the drawing calls are exactly draw_sun_logo at center
(width // 2, int(height * 0.38)) and scale 2.8 followed by the tagline text, and
the vertical center int(height * 0.38) equals 38 * height / 100 rounded down. -/
theorem main_logo_center (env : Env) (width height : ℕ) :
    (mainOps env width height =
      draw_sun_logo env.cosA env.sinA ((width / 2 : ℕ) : ℤ) (pyInt ((height : ℚ) * 0.38))
          logo_scale ++
        [DrawOp.text
          (textX width (env.textWidth (resolveFont env.fontLoads) tagline), textY height)
          tagline FOREGROUND (resolveFont env.fontLoads)]) ∧
    logoCenterY height = ((38 * height / 100 : ℕ) : ℤ) := by
  constructor
  · rfl
  · have h0 : (0 : ℚ) ≤ (height : ℚ) * 0.38 := by positivity
    rw [logoCenterY, pyInt_nonneg_eq_floor h0,
      show ((height : ℚ) * 0.38) = (((38 * height : ℕ) : ℚ) / ((100 : ℕ) : ℚ)) by
        push_cast; ring,
      Rat.floor_natCast_div_natCast]
    push_cast
    rfl

/-- C5: font selection tries the candidate paths in their listed order and uses the
first that loads; the built-in default font is used exactly when every candidate
fails to load, and selection always yields a font (it never aborts the program). -/
theorem main_font_selection (loads : String → Bool) :
    (resolveFont loads = Font.builtinDefault ↔ ∀ p ∈ font_paths, loads p = false) ∧
    (∀ p, font_paths.find? loads = some p →
      resolveFont loads = Font.truetype p font_size) := by
  have key := tryFontPaths_eq_find loads font_size font_paths
  constructor
  · constructor
    · intro h
      cases hfind : font_paths.find? loads with
      | none =>
        intro p hp
        have := List.find?_eq_none.mp hfind p hp
        simpa using this
      | some q =>
        rw [resolveFont, key, hfind] at h
        simp at h
    · intro hall
      have hfind : font_paths.find? loads = none :=
        List.find?_eq_none.mpr (fun p hp => by simp [hall p hp])
      rw [resolveFont, key, hfind]
      rfl
  · intro p hp
    rw [resolveFont, key, hp]
    rfl

/-- C5 witness: an oracle accepting exactly the second candidate selects it. -/
theorem main_font_selection_witness :
    resolveFont sfnsOnly = Font.truetype "/System/Library/Fonts/SFNSText.ttf" font_size :=
  (main_font_selection sfnsOnly).2 "/System/Library/Fonts/SFNSText.ttf" rfl

/-- C6: the last drawing call of main is the tagline text, horizontally centered at
x = (width - text_width) // 2 (Python floor division) and near the bottom at
y = height - 110, for every width, height and measured text width. -/
theorem main_tagline_position (env : Env) (width height : ℕ) :
    (mainOps env width height).getLast? =
      some (DrawOp.text
        (Int.fdiv ((width : ℤ) - env.textWidth (resolveFont env.fontLoads) tagline) 2,
         (height : ℤ) - 110)
        tagline FOREGROUND (resolveFont env.fontLoads)) := by
  simp only [mainOps]
  exact List.getLast?_concat _

/-- C7: main creates every missing parent directory of the output path before
saving, tolerating the ones that already exist: afterwards every previously
existing directory still exists, every ancestor of the output path's parent
exists, and the parent itself exists, so the save succeeds. -/
theorem main_creates_parent_dirs (env : Env) (fs : DirState) (output : FsPath)
    (width height : ℕ) :
    (∀ d, d ∈ fs → d ∈ (main env fs output width height).dirs) ∧
    (∀ k, output.dropLast.take k ∈ (main env fs output width height).dirs) ∧
    output.dropLast ∈ (main env fs output width height).dirs := by
  refine ⟨?_, ?_, ?_⟩
  · intro d hd
    exact List.mem_append_left _ hd
  · intro k
    refine List.mem_append_right _ ?_
    exact (List.mem_inits _ _).mpr ⟨output.dropLast.drop k, List.take_append_drop k output.dropLast⟩
  · refine List.mem_append_right _ ?_
    exact (List.mem_inits _ _).mpr ⟨[], List.append_nil _⟩

/-- C7 witness: a concrete run with one preexisting directory and a nested output
path whose parents do not exist yet. -/
theorem main_creates_parent_dirs_witness :
    ["assets"] ∈ (main trivEnv [["assets"]] ["public", "images", "og.png"] 1200 630).dirs ∧
    ["public", "images"] ∈ (main trivEnv [["assets"]] ["public", "images", "og.png"] 1200 630).dirs := by
  constructor
  · exact (main_creates_parent_dirs trivEnv [["assets"]] ["public", "images", "og.png"]
      1200 630).1 ["assets"] (List.mem_cons_self _ _)
  · exact (main_creates_parent_dirs trivEnv [["assets"]] ["public", "images", "og.png"]
      1200 630).2.2

/-- C8: the composed image is a deterministic function of width, height and the
resolved font: two invocations sharing the imaging libraries (trig, rasterizer,
text measurement) whose font resolution outcome is the same produce pixel-for-pixel
identical image content, whatever else (filesystem state, output path, which font
files exist) differs. -/
theorem main_deterministic (env1 env2 : Env) (fs1 fs2 : DirState) (out1 out2 : FsPath)
    (width height : ℕ)
    (hc : env1.cosA = env2.cosA) (hs : env1.sinA = env2.sinA)
    (hr : env1.raster = env2.raster) (ht : env1.textWidth = env2.textWidth)
    (hf : resolveFont env1.fontLoads = resolveFont env2.fontLoads) :
    ∀ x y, (main env1 fs1 out1 width height).image.pix x y
         = (main env2 fs2 out2 width height).image.pix x y := by
  intro x y
  have hops : mainOps env1 width height = mainOps env2 width height := by
    simp only [mainOps, hc, hs, ht, hf]
  show (renderOps env1.raster (imageNew width height BACKGROUND)
    (mainOps env1 width height)).pix x y = _
  rw [hops, hr]
  rfl

/-- C8 witness: two environments differing in which font files exist but resolving
the same font produce the same pixel. -/
theorem main_deterministic_witness :
    trivEnv.fontLoads "/tmp/extra-font.ttf" = false ∧
    altEnv.fontLoads "/tmp/extra-font.ttf" = true ∧
    (main trivEnv [] ["og.png"] 4 4).image.pix 1 1
      = (main altEnv [] ["og.png"] 4 4).image.pix 1 1 := by
  refine ⟨rfl, rfl, ?_⟩
  exact main_deterministic trivEnv altEnv [] [] ["og.png"] ["og.png"] 4 4 rfl rfl rfl rfl rfl 1 1

/-- C9: draw_sun_logo consists of the sun arc, the horizon line, and the ray loop;
the loop draws exactly 11 rays, one per ray_data entry at the fixed listed angles,
and attaches a circuit-node ellipse centered at a ray's endpoint exactly when that
ray's angle is nonzero. -/
theorem draw_sun_logo_rays_nodes (cosA sinA : ℚ → ℚ) (center_x center_y : ℤ) (scale : ℚ) :
    (ray_data.map Prod.fst =
      [-73.5, -58.8, -44.1, -29.4, -14.7, 0, 14.7, 29.4, 44.1, 58.8, 73.5]) ∧
    (ray_data.length = 11) ∧
    (draw_sun_logo cosA sinA center_x center_y scale =
      DrawOp.arc
          [center_x - pyInt (55 * scale), center_y + pyInt (10 * scale) - pyInt (55 * scale),
           center_x + pyInt (55 * scale), center_y + pyInt (10 * scale) + pyInt (55 * scale)]
          200 340 PRIMARY (pyInt (4 * scale)) ::
        DrawOp.line
          [(center_x - pyInt (117 * scale), center_y + pyInt (10 * scale)),
           (center_x + pyInt (117 * scale), center_y + pyInt (10 * scale))]
          PRIMARY (pyInt (2 * scale)) ::
        ray_data.flatMap (drawRay cosA sinA center_x (center_y + pyInt (10 * scale)) scale
          (pyInt (60 * scale)) (pyInt (55 * scale)))) ∧
    ((ray_data.flatMap (drawRay cosA sinA center_x (center_y + pyInt (10 * scale)) scale
        (pyInt (60 * scale)) (pyInt (55 * scale)))).countP DrawOp.isLine = 11) ∧
    (∀ r ∈ ray_data, ∃ s e,
      drawRay cosA sinA center_x (center_y + pyInt (10 * scale)) scale
          (pyInt (60 * scale)) (pyInt (55 * scale)) r =
        DrawOp.line [s, e] PRIMARY (pyInt (2.5 * scale)) ::
          (if r.1 ≠ 0 then
            [DrawOp.ellipse [e.1 - pyInt (4 * scale), e.2 - pyInt (4 * scale),
                             e.1 + pyInt (4 * scale), e.2 + pyInt (4 * scale)]
               PRIMARY (pyInt (2 * scale))]
          else [])) := by
  refine ⟨rfl, rfl, rfl, ?_, ?_⟩
  · exact (flatMap_drawRay_countP cosA sinA center_x (center_y + pyInt (10 * scale)) scale
      (pyInt (60 * scale)) (pyInt (55 * scale)) ray_data).trans rfl
  · intro r hr
    obtain ⟨s, e, hre⟩ := drawRay_shape cosA sinA center_x (center_y + pyInt (10 * scale))
      scale (pyInt (60 * scale)) (pyInt (55 * scale)) r
    refine ⟨s, e, ?_⟩
    rw [hre]
    exact congrArg _ (if_congr (mem_nodeAngles_iff_ne_zero r hr) rfl rfl)

/-- C9 witness: the vertical ray of angle 0 is drawn with no circuit node. -/
theorem draw_sun_logo_rays_nodes_witness :
    ∃ s e, drawRay (fun _ => 0) (fun _ => 0) 0 (0 + pyInt (10 * 2)) 2
        (pyInt (60 * 2)) (pyInt (55 * 2)) ((0 : ℚ), (1.0 : ℚ)) =
      [DrawOp.line [s, e] PRIMARY (pyInt (2.5 * 2))] := by
  obtain ⟨s, e, h⟩ := (draw_sun_logo_rays_nodes (fun _ => 0) (fun _ => 0) 0 0 2).2.2.2.2
    ((0 : ℚ), (1.0 : ℚ))
    (List.mem_cons_of_mem _ (List.mem_cons_of_mem _ (List.mem_cons_of_mem _
      (List.mem_cons_of_mem _ (List.mem_cons_of_mem _ (List.mem_cons_self _ _))))))
  refine ⟨s, e, ?_⟩
  rw [h, if_neg (by norm_num)]

/-- C10: main runs to completion for every positive requested size, finishing with
exit status 0 and writing the PNG even when the canvas cannot contain the logo or
the tagline; drawing is clipped silently (no pixel outside the canvas grid is ever
written, so such coordinates keep the background value of the initial canvas
function), and for height < 110 the tagline y coordinate is negative yet the run
still completes. -/
theorem main_total_clipped (env : Env) (fs : DirState) (output : FsPath) (width height : ℕ)
    (hw : 1 ≤ width) (hh : 1 ≤ height) :
    (main env fs output width height).exitCode = 0 ∧
    (main env fs output width height).png = savePng (main env fs output width height).image ∧
    (∀ x y, ¬(x < width ∧ y < height) →
      (main env fs output width height).image.pix x y = BACKGROUND) ∧
    (height < 110 → textY height < 0) := by
  refine ⟨rfl, rfl, ?_, ?_⟩
  · intro x y hxy
    exact (renderOps_pix_outside env.raster (mainOps env width height)
      (imageNew width height BACKGROUND) x y hxy).trans rfl
  · intro hlt
    simp only [textY]
    omega

/-- C10 witness: a 1-by-1 canvas, far too small for logo and tagline, still
completes with status 0 and a negative tagline y coordinate. -/
theorem main_total_clipped_witness :
    (main trivEnv [] ["og.png"] 1 1).exitCode = 0 ∧ textY 1 < 0 := by
  refine ⟨(main_total_clipped trivEnv [] ["og.png"] 1 1 (by decide) (by decide)).1, ?_⟩
  exact (main_total_clipped trivEnv [] ["og.png"] 1 1 (by decide) (by decide)).2.2.2 (by decide)

end OgImage
